import Mathlib

/-!
Shallow embedding of the real-time timer synchronization client of this
repository (src/src/components/StudyTimer.tsx together with the timer
endpoints of the API client), and theorems settling the claims about it.

Conventions of the embedding:
- JavaScript numbers that the component treats as nonnegative integers
  (seconds, session counters, socket ids) are modelled as Nat.
- The optional `topic` field and the optional `notification` field are
  modelled as Option String; JavaScript truthiness of a possibly-absent
  string value (undefined, null and the empty string are falsy) is made
  explicit in jsTruthyStr.
- Fallible request/response calls are modelled by their outcome, a value
  of type Except String Unit (the string is the error); a handler written
  with try/catch in the source becomes a total Lean function of the
  outcome, which is exactly the "no uncaught propagation" behaviour.
- The event-driven runtime (socket callbacks, the reconnect timeout, the
  React unmount cleanup) is modelled as a step function on an explicit
  runtime state; see the comments on each case for the source lines.
-/

deriving instance DecidableEq for Except

namespace StudyTimerModel

/-- TimerState, from src/src/types/index.ts. The client holds a cached
copy (the React state `timerState`), initially null. -/
structure TimerState where
  is_running : Bool
  is_break : Bool
  current_session : Nat
  time_remaining : Nat
  topic : Option String
deriving DecidableEq, Repr

/-- TimerStats, from src/src/types/index.ts (`time_remaining` is a
formatted string there). -/
structure TimerStats where
  sessions_completed : Nat
  total_study_minutes : Nat
  total_break_minutes : Nat
  current_topic : Option String
  is_break : Bool
  time_remaining : String
deriving DecidableEq, Repr

/-- The React state of the StudyTimer component: `timerState`, `stats`
and `isConnected` (lines 21-23 of StudyTimer.tsx). -/
structure ComponentState where
  timerState : Option TimerState
  stats : Option TimerStats
  isConnected : Bool
deriving DecidableEq, Repr

/-- An inbound push message as parsed by ws.onmessage: a full `state`
payload and an optional `notification` string (lines 56-68). -/
structure PushMessage where
  state : TimerState
  notification : Option String
deriving DecidableEq, Repr

/-- JavaScript truthiness of a possibly-absent string: undefined/null and
the empty string are falsy, every other string is truthy. This is the
test `if (data.notification)` performs on line 61. -/
def jsTruthyStr : Option String → Bool
  | none => false
  | some s => !(s == "")

/-- The runtime environment consulted by the notification branch of
ws.onmessage: whether the Notification API exists on `window` and the
value of `Notification.permission` (line 65). -/
structure NotifEnv where
  apiAvailable : Bool
  permission : String
deriving DecidableEq, Repr

/-- Effects of one run of the ws.onmessage handler: the new component
state, the toast texts shown, and the system notifications emitted as
(title, body) pairs. -/
structure MessageEffects where
  newState : ComponentState
  toasts : List String
  sysNotifs : List (String × String)
deriving DecidableEq, Repr

/-- The state update of ws.onmessage, line 58: setTimerState(data.state).
The received state replaces the cached one wholesale. -/
def applyPush (c : ComponentState) (m : PushMessage) : ComponentState :=
  { c with timerState := some m.state }

/-- The full ws.onmessage handler (lines 56-69): replace the cached state,
then, when `data.notification` is truthy, show a toast with that text and,
when the Notification API is available and permission is granted, emit a
system notification titled Study Timer with the text as body. -/
def handleMessage (env : NotifEnv) (c : ComponentState) (m : PushMessage) :
    MessageEffects :=
  let c1 := applyPush c m
  if jsTruthyStr m.notification then
    let text := m.notification.getD ""
    { newState := c1
      toasts := [text]
      sysNotifs :=
        if env.apiAvailable && (env.permission == "granted") then
          [("Study Timer", text)]
        else [] }
  else
    { newState := c1, toasts := [], sysNotifs := [] }

/-- Claim C1: processing any nonempty sequence of inbound push messages
through the ws.onmessage handler leaves the cached TimerState equal to the
`state` payload of the last message, independently of the initial cached
value: each message replaces the cache wholesale, with no field-level
merging. -/
theorem lastWriteWins (env : NotifEnv) (c0 : ComponentState)
    (ms : List PushMessage) (h : ms ≠ []) :
    (ms.foldl (fun c m => (handleMessage env c m).newState) c0).timerState
      = some (ms.getLast h).state := by
  induction ms generalizing c0 with
  | nil => exact absurd rfl h
  | cons m ms ih =>
    cases ms with
    | nil =>
      simp [handleMessage, applyPush]
      split <;> rfl
    | cons m2 ms2 =>
      rw [List.foldl_cons, List.getLast_cons (by simp)]
      exact ih _ _

/-- Witness for lastWriteWins at a concrete two-message sequence. -/
theorem lastWriteWins_witness :
    (([⟨⟨false, false, 1, 1500, none⟩, none⟩,
       ⟨⟨true, false, 1, 1490, some "math"⟩, some "hi"⟩] :
        List PushMessage).foldl
        (fun c m => (handleMessage ⟨false, "default"⟩ c m).newState)
        ⟨none, none, false⟩).timerState
      = some ⟨true, false, 1, 1490, some "math"⟩ := by
  have h := lastWriteWins ⟨false, "default"⟩ ⟨none, none, false⟩
    [⟨⟨false, false, 1, 1500, none⟩, none⟩,
     ⟨⟨true, false, 1, 1490, some "math"⟩, some "hi"⟩] (by simp)
  simpa using h

/-- A request to the backend timer API, as issued by the timer methods of
src/lib/api.ts (createTimer, startTimer, pauseTimer, resetTimer,
getTimerState, getTimerStats). -/
inductive ApiRequest
  | createTimer (user_id : String) (study_duration break_duration
      long_break_duration sessions_until_long_break : Nat)
  | startTimer (user_id : String) (topic : Option String)
  | pauseTimer (user_id : String)
  | resetTimer (user_id : String)
  | getTimerState (user_id : String)
  | getTimerStats (user_id : String)
deriving DecidableEq, Repr

/-- A toast shown through react-hot-toast: toast.success or toast.error
with a message. -/
inductive Toast
  | success (msg : String)
  | error (msg : String)
deriving DecidableEq, Repr

/-- The synchronous outcome of one command handler run: the component
state after the handler returns, the request it sent, the toasts it
showed, and the follow-up requests it issued after the response. A
handler written with try/catch returns a CmdResult on every outcome,
never an exception. -/
structure CmdResult where
  newState : ComponentState
  request : ApiRequest
  toasts : List Toast
  followUps : List ApiRequest
deriving DecidableEq, Repr

/-- handleStart (lines 109-116): await apiClient.startTimer(userId,
currentTopic); on success toast.success, on rejection toast.error; no
setTimerState or setStats call in either branch. -/
def handleStart (userId : String) (topic : Option String)
    (c : ComponentState) (outcome : Except String Unit) : CmdResult :=
  { newState := c
    request := .startTimer userId topic
    toasts :=
      match outcome with
      | .ok _ => [.success "Timer started!"]
      | .error _ => [.error "Failed to start timer"]
    followUps := [] }

/-- handlePause (lines 118-125): await apiClient.pauseTimer(userId); on
success toast.success, on rejection toast.error; no state call. -/
def handlePause (userId : String) (c : ComponentState)
    (outcome : Except String Unit) : CmdResult :=
  { newState := c
    request := .pauseTimer userId
    toasts :=
      match outcome with
      | .ok _ => [.success "Timer paused"]
      | .error _ => [.error "Failed to pause timer"]
    followUps := [] }

/-- handleReset (lines 127-135): await apiClient.resetTimer(userId); on
success it calls fetchStats() (an asynchronous re-fetch, recorded as a
follow-up request) and toast.success; on rejection toast.error; no
synchronous state call in either branch. -/
def handleReset (userId : String) (c : ComponentState)
    (outcome : Except String Unit) : CmdResult :=
  { newState := c
    request := .resetTimer userId
    toasts :=
      match outcome with
      | .ok _ => [.success "Timer reset"]
      | .error _ => [.error "Failed to reset timer"]
    followUps :=
      match outcome with
      | .ok _ => [.getTimerStats userId]
      | .error _ => [] }

/-- Claim C5: no command handler synchronously changes the component
state: for every cached state and every request outcome, the state
returned by handleStart, handlePause and handleReset is the state it was
given; in particular the cached TimerState is never optimistically
updated inside a command handler (handleReset only issues a stats
re-fetch as a follow-up request). -/
theorem commands_no_sync_mutation (userId : String) (topic : Option String)
    (c : ComponentState) (outcome : Except String Unit) :
    (handleStart userId topic c outcome).newState = c ∧
    (handlePause userId c outcome).newState = c ∧
    (handleReset userId c outcome).newState = c := by
  refine ⟨rfl, rfl, rfl⟩

/-- Claim C6: when the request of a command rejects, the handler shows
exactly one error toast, leaves the component state (hence the cached
TimerState) unchanged, issues no follow-up request, and returns an
ordinary CmdResult: the rejection is consumed by the catch branch and
never propagates out of the handler. -/
theorem command_failure_policy (userId : String) (topic : Option String)
    (c : ComponentState) (e : String) :
    handleStart userId topic c (.error e)
      = { newState := c, request := .startTimer userId topic,
          toasts := [.error "Failed to start timer"], followUps := [] } ∧
    handlePause userId c (.error e)
      = { newState := c, request := .pauseTimer userId,
          toasts := [.error "Failed to pause timer"], followUps := [] } ∧
    handleReset userId c (.error e)
      = { newState := c, request := .resetTimer userId,
          toasts := [.error "Failed to reset timer"], followUps := [] } := by
  refine ⟨rfl, rfl, rfl⟩

/-- The readyState of a WebSocket (CONNECTING, OPEN, CLOSING, CLOSED).
OPEN is spelled opened because open is a Lean keyword. -/
inductive ReadyState
  | connecting
  | opened
  | closing
  | closed
deriving DecidableEq, Repr

/-- One WebSocket object ever constructed by connectWebSocket, identified
by its creation index. All sockets keep their event handlers for their
whole life; the component never detaches them. -/
structure Socket where
  id : Nat
  readyState : ReadyState
deriving DecidableEq, Repr

/-- The runtime state of one mounted StudyTimer instance: its React
component state, the mutable ref wsRef.current (the id of the socket it
points to, none before the first connect), every socket created so far,
the delays (in milliseconds) of the reconnect timeouts scheduled by
ws.onclose and not yet fired, and a fresh-id counter. `mounted` is ghost
state recording whether the unmount cleanup has run; the source never
reads such a flag, so no case of `step` consults it. -/
structure Runtime where
  userId : String
  comp : ComponentState
  mounted : Bool
  wsRef : Option Nat
  sockets : List Socket
  pendingReconnects : List Nat
  nextId : Nat
deriving DecidableEq, Repr

/-- Set the readyState of the socket with the given id. -/
def setSocketState (sockets : List Socket) (i : Nat) (rs : ReadyState) :
    List Socket :=
  sockets.map (fun s => if s.id == i then { s with readyState := rs } else s)

/-- The readyState of the socket wsRef currently points to, none when
wsRef is null (this is the optional chaining wsRef.current?.readyState of
line 82). -/
def refReadyState (r : Runtime) : Option ReadyState :=
  r.wsRef.bind fun i =>
    (r.sockets.find? (fun s => s.id == i)).map (fun s => s.readyState)

/-- The guard of the reconnect timeout body, line 82:
wsRef.current?.readyState === WebSocket.CLOSED. -/
def refClosed (r : Runtime) : Bool :=
  refReadyState r == some ReadyState.closed

/-- connectWebSocket, lines 48-89: construct a new WebSocket (readyState
CONNECTING), install its handlers, and assign it to wsRef.current. -/
def connectWS (r : Runtime) : Runtime :=
  { r with
    sockets := r.sockets ++ [{ id := r.nextId, readyState := .connecting }]
    wsRef := some r.nextId
    nextId := r.nextId + 1 }

/-- The discrete events the component reacts to: the four WebSocket
callbacks, the firing of a scheduled reconnect timeout, the command
handlers with their request outcome, the resolution of the asynchronous
initialization and fetch calls, and the React unmount cleanup. The
component registers no other timer or interval: the only setTimeout in
StudyTimer.tsx is the reconnect on line 81. -/
inductive Event
  | wsOpen (sid : Nat)
  | wsMessage (sid : Nat) (m : PushMessage)
  | wsError (sid : Nat)
  | wsClose (sid : Nat)
  | reconnectFire
  | clickStart (topic : Option String) (outcome : Except String Unit)
  | clickPause (outcome : Except String Unit)
  | clickReset (outcome : Except String Unit)
  | createResolved (outcome : Except String Unit)
  | fetchStateResp (st : TimerState)
  | fetchStateFailed
  | fetchStatsResp (st : TimerStats)
  | fetchStatsFailed
  | unmount
deriving DecidableEq, Repr

/-- One event-loop step of the component.
- wsOpen: ws.onopen (lines 51-54) sets isConnected true; the socket is
  now OPEN.
- wsMessage: ws.onmessage (lines 56-69) replaces the cached TimerState
  (applyPush); handlers of stale sockets still run, as they are never
  removed.
- wsError: ws.onerror (lines 71-74) sets isConnected false.
- wsClose: ws.onclose (lines 76-86) sets isConnected false and schedules
  exactly one reconnect timeout with delay 3000 ms; the socket is now
  CLOSED.
- reconnectFire: the body of the setTimeout on lines 81-85 runs: it calls
  connectWebSocket() when wsRef.current?.readyState === CLOSED and does
  nothing otherwise. There is no mounted or cancellation guard.
- clickStart/clickPause/clickReset: the command handlers (lines 109-135),
  whose synchronous state effect is given by their CmdResult.
- createResolved: resolution of apiClient.createTimer inside
  initializeTimer (lines 38-46); on success it triggers the two fetches
  (asynchronous, modelled as separate events), on rejection it only logs;
  neither branch touches the component state.
- fetchStateResp / fetchStateFailed: fetchTimerState (lines 91-98)
  setTimerState on success, console.error only on failure.
- fetchStatsResp / fetchStatsFailed: fetchStats (lines 100-107) setStats
  on success, console.error only on failure.
- unmount: the useEffect cleanup (lines 31-35) calls
  wsRef.current.close() when wsRef is set: a CLOSED socket stays CLOSED,
  any other becomes CLOSING. It cancels no timeout. -/
def step (r : Runtime) (e : Event) : Runtime :=
  match e with
  | .wsOpen sid =>
      { r with
        sockets := setSocketState r.sockets sid .opened
        comp := { r.comp with isConnected := true } }
  | .wsMessage _ m => { r with comp := applyPush r.comp m }
  | .wsError _ => { r with comp := { r.comp with isConnected := false } }
  | .wsClose sid =>
      { r with
        sockets := setSocketState r.sockets sid .closed
        comp := { r.comp with isConnected := false }
        pendingReconnects := r.pendingReconnects ++ [3000] }
  | .reconnectFire =>
      match r.pendingReconnects with
      | [] => r
      | _ :: rest =>
        let r1 := { r with pendingReconnects := rest }
        if refClosed r1 then connectWS r1 else r1
  | .clickStart topic outcome =>
      { r with comp := (handleStart r.userId topic r.comp outcome).newState }
  | .clickPause outcome =>
      { r with comp := (handlePause r.userId r.comp outcome).newState }
  | .clickReset outcome =>
      { r with comp := (handleReset r.userId r.comp outcome).newState }
  | .createResolved _ => r
  | .fetchStateResp st =>
      { r with comp := { r.comp with timerState := some st } }
  | .fetchStateFailed => r
  | .fetchStatsResp st =>
      { r with comp := { r.comp with stats := some st } }
  | .fetchStatsFailed => r
  | .unmount =>
      { r with
        mounted := false
        sockets :=
          match r.wsRef with
          | some i =>
              r.sockets.map fun s =>
                if s.id == i then
                  { s with
                    readyState :=
                      if s.readyState == .closed then .closed else .closing }
                else s
          | none => r.sockets }

/-- Claim C4: every close event of the live connection sets the exposed
connection status to disconnected and appends exactly one reconnect
timeout with the fixed 3000 ms delay; and when a scheduled reconnect
fires, it opens exactly one new connection (a fresh socket, which wsRef
then points to) when the current handle's readyState is CLOSED, and
changes neither the socket list nor wsRef otherwise. -/
theorem onclose_reconnect_policy (r r2 : Runtime) (sid : Nat)
    (h : r2.pendingReconnects ≠ []) :
    (step r (.wsClose sid)).comp.isConnected = false ∧
    (step r (.wsClose sid)).pendingReconnects
      = r.pendingReconnects ++ [3000] ∧
    (step r2 .reconnectFire).sockets =
      (if refClosed r2 then
        r2.sockets ++ [{ id := r2.nextId, readyState := .connecting }]
      else r2.sockets) ∧
    (step r2 .reconnectFire).wsRef =
      (if refClosed r2 then some r2.nextId else r2.wsRef) := by
  refine ⟨rfl, rfl, ?_, ?_⟩ <;>
  · cases hp : r2.pendingReconnects with
    | nil => exact absurd hp h
    | cons t rest =>
      have hrc : refClosed { r2 with pendingReconnects := rest }
          = refClosed r2 := rfl
      cases hc : refClosed r2 <;>
        simp [step, hp, hrc, hc, connectWS]

/-- Witness for onclose_reconnect_policy: a close event on a runtime with
no pending reconnect, and a reconnect firing on a runtime whose current
socket is CLOSED. -/
theorem onclose_reconnect_policy_witness :
    (step ⟨"u", ⟨none, none, true⟩, true, some 0, [⟨0, .opened⟩], [], 1⟩
        (.wsClose 0)).comp.isConnected = false ∧
    (step ⟨"u", ⟨none, none, true⟩, true, some 0, [⟨0, .opened⟩], [], 1⟩
        (.wsClose 0)).pendingReconnects = [3000] ∧
    (step ⟨"u", ⟨none, none, false⟩, true, some 0, [⟨0, .closed⟩], [3000], 1⟩
        .reconnectFire).sockets = [⟨0, .closed⟩, ⟨1, .connecting⟩] ∧
    (step ⟨"u", ⟨none, none, false⟩, true, some 0, [⟨0, .closed⟩], [3000], 1⟩
        .reconnectFire).wsRef = some 1 := by
  have h := onclose_reconnect_policy
    ⟨"u", ⟨none, none, true⟩, true, some 0, [⟨0, .opened⟩], [], 1⟩
    ⟨"u", ⟨none, none, false⟩, true, some 0, [⟨0, .closed⟩], [3000], 1⟩
    0 (by decide)
  exact ⟨h.1, h.2.1, h.2.2.1.trans (by decide), h.2.2.2.trans (by decide)⟩

/-- Claim C2 (code behaviour at the failing input): after the connection
closes (scheduling the 3-second reconnect) and the component then
unmounts (the cleanup closes the already-closed socket and cancels
nothing), the scheduled reconnect still fires, finds
wsRef.current.readyState CLOSED, and opens a brand-new WebSocket: a
second socket exists and wsRef points to it although the component is
unmounted. The claim says no connection may be opened after teardown; the
code opens one. -/
theorem reconnect_fires_after_unmount :
    (step (step (step
        ⟨"default_user",
          ⟨some ⟨false, false, 1, 1500, none⟩, none, true⟩,
          true, some 0, [⟨0, .opened⟩], [], 1⟩
        (.wsClose 0)) .unmount) .reconnectFire).sockets.length = 2 ∧
    (step (step (step
        ⟨"default_user",
          ⟨some ⟨false, false, 1, 1500, none⟩, none, true⟩,
          true, some 0, [⟨0, .opened⟩], [], 1⟩
        (.wsClose 0)) .unmount) .reconnectFire).wsRef = some 1 ∧
    (step (step
        ⟨"default_user",
          ⟨some ⟨false, false, 1, 1500, none⟩, none, true⟩,
          true, some 0, [⟨0, .opened⟩], [], 1⟩
        (.wsClose 0)) .unmount).mounted = false ∧
    (step (step
        ⟨"default_user",
          ⟨some ⟨false, false, 1, 1500, none⟩, none, true⟩,
          true, some 0, [⟨0, .opened⟩], [], 1⟩
        (.wsClose 0)) .unmount).sockets.length = 1 := by
  decide

/-- Claim C7: the cached TimerState is never changed by any event other
than an inbound push message or a successful explicit state re-fetch: if
one step changes it, the event was ws.onmessage (and the new cache is
that message's state payload) or the resolution of fetchTimerState (and
the new cache is the fetched state). No other event, in particular no
timer: the only scheduled callback in the component is the reconnect
timeout, which never touches the cached TimerState. -/
theorem timerState_frame (r : Runtime) (e : Event)
    (h : (step r e).comp.timerState ≠ r.comp.timerState) :
    (∃ sid m, e = Event.wsMessage sid m ∧
        (step r e).comp.timerState = some m.state) ∨
    (∃ st, e = Event.fetchStateResp st ∧
        (step r e).comp.timerState = some st) := by
  cases e with
  | wsMessage sid m => exact Or.inl ⟨sid, m, rfl, rfl⟩
  | fetchStateResp st => exact Or.inr ⟨st, rfl, rfl⟩
  | wsOpen sid => exact absurd rfl h
  | wsError sid => exact absurd rfl h
  | wsClose sid => exact absurd rfl h
  | clickStart topic outcome => exact absurd rfl h
  | clickPause outcome => exact absurd rfl h
  | clickReset outcome => exact absurd rfl h
  | createResolved outcome => exact absurd rfl h
  | fetchStateFailed => exact absurd rfl h
  | fetchStatsResp st => exact absurd rfl h
  | fetchStatsFailed => exact absurd rfl h
  | unmount => exact absurd rfl h
  | reconnectFire =>
    exfalso
    apply h
    cases hp : r.pendingReconnects with
    | nil => simp [step, hp]
    | cons t rest =>
      simp only [step, hp]
      cases refClosed { r with pendingReconnects := rest } <;>
        simp [connectWS]

/-- Witness for timerState_frame: a state re-fetch resolving on an empty
cache changes it, and the conclusion names that event. -/
theorem timerState_frame_witness :
    (∃ sid m, (Event.fetchStateResp ⟨true, false, 2, 900, none⟩ : Event)
        = Event.wsMessage sid m ∧
        (step ⟨"u", ⟨none, none, false⟩, true, none, [], [], 0⟩
            (.fetchStateResp ⟨true, false, 2, 900, none⟩)).comp.timerState
          = some m.state) ∨
    (∃ st, (Event.fetchStateResp ⟨true, false, 2, 900, none⟩ : Event)
        = Event.fetchStateResp st ∧
        (step ⟨"u", ⟨none, none, false⟩, true, none, [], [], 0⟩
            (.fetchStateResp ⟨true, false, 2, 900, none⟩)).comp.timerState
          = some st) :=
  timerState_frame ⟨"u", ⟨none, none, false⟩, true, none, [], [], 0⟩
    (.fetchStateResp ⟨true, false, 2, 900, none⟩) (by decide)

/-- Whether the pattern occurs at the head of the list. -/
def matchesAt : List Char → List Char → Bool
  | [], _ => true
  | _ :: _, [] => false
  | p :: ps, c :: cs => p == c && matchesAt ps cs

/-- Replace the first occurrence of the pattern, scanning left to right;
the list is returned unchanged when the pattern does not occur. -/
def replaceFirstAux (pat rep : List Char) : List Char → List Char
  | [] => if pat.isEmpty then rep else []
  | c :: cs =>
    if matchesAt pat (c :: cs) then rep ++ (c :: cs).drop pat.length
    else c :: replaceFirstAux pat rep cs

/-- JavaScript String.prototype.replace with a plain string pattern: it
replaces only the first occurrence of the pattern. -/
def jsReplaceFirst (s pat rep : String) : String :=
  ⟨replaceFirstAux pat.data rep.data s.data⟩

/-- WS_URL, line 13 of StudyTimer.tsx: API_URL.replace('http', 'ws'),
with the externally supplied base address as a parameter. -/
def wsUrl (apiUrl : String) : String :=
  jsReplaceFirst apiUrl "http" "ws"

/-- The live-connection address of line 49: WS_URL/api/timer/ws/userId. -/
def wsConnectionUrl (apiUrl userId : String) : String :=
  wsUrl apiUrl ++ "/api/timer/ws/" ++ userId

/-- Replacing the first occurrence of http at the head of a list that
starts with it yields ws followed by the remainder. -/
theorem replaceFirstAux_http (l : List Char) :
    replaceFirstAux "http".data "ws".data
        ('h' :: 't' :: 't' :: 'p' :: l) = 'w' :: 's' :: l := by
  have hd : "http".data = ['h', 't', 't', 'p'] := by decide
  have hr : "ws".data = ['w', 's'] := by decide
  rw [hd, hr]
  simp +decide [replaceFirstAux, matchesAt]

/-- Claim C9: for every backend base address with an HTTP scheme and
every identity key, the live-connection address is the base address with
the scheme substituted (http becomes ws, https becomes wss) and the path
/api/timer/ws/ followed by the identity key appended. The substitution
is the one of line 13, which replaces the first occurrence of http; on an
address starting with the scheme, that occurrence is the scheme itself. -/
theorem ws_address_scheme (rest userId : String) :
    wsConnectionUrl ("http://" ++ rest) userId
      = "ws://" ++ rest ++ "/api/timer/ws/" ++ userId ∧
    wsConnectionUrl ("https://" ++ rest) userId
      = "wss://" ++ rest ++ "/api/timer/ws/" ++ userId := by
  have h1 : "http://".data = ['h', 't', 't', 'p', ':', '/', '/'] := by decide
  have h2 : "https://".data = ['h', 't', 't', 'p', 's', ':', '/', '/'] := by
    decide
  have h3 : "ws://".data = ['w', 's', ':', '/', '/'] := by decide
  have h4 : "wss://".data = ['w', 's', 's', ':', '/', '/'] := by decide
  constructor <;>
  · apply String.ext
    simp only [wsConnectionUrl, wsUrl, jsReplaceFirst, String.data_append,
      h1, h2, h3, h4, List.cons_append, List.nil_append]
    rw [replaceFirstAux_http]
    simp

/-- An observable action of the mount sequence: issuing the create
request, constructing the WebSocket, the create response arriving, and
issuing the two fetches. -/
inductive Action
  | createReq (user_id : String) (study_duration break_duration
      long_break_duration sessions_until_long_break : Nat)
  | wsOpenAttempt (url : String)
  | createCompleted
  | stateReq (user_id : String)
  | statsReq (user_id : String)
deriving DecidableEq, Repr

/-- The action sequence of the mount effect (StudyTimer.tsx lines 27-46),
on the success path of the create request. The useEffect body calls
initializeTimer() without awaiting it and then connectWebSocket()
synchronously: initializeTimer suspends as soon as it has issued
apiClient.createTimer(userId, 25, 5, 15, 4), so the WebSocket constructor
runs before the create response arrives; when the response arrives,
fetchTimerState() and fetchStats() issue their requests. On rejection of
the create request the catch block only logs and neither fetch is
issued. -/
def mountTrace (apiUrl userId : String) : List Action :=
  [ .createReq userId 25 5 15 4,
    .wsOpenAttempt (wsConnectionUrl apiUrl userId),
    .createCompleted,
    .stateReq userId,
    .statsReq userId ]

/-- Recognizes the WebSocket construction action. -/
def isWsOpenAttempt : Action → Bool
  | .wsOpenAttempt _ => true
  | _ => false

/-- Recognizes the arrival of the create response. -/
def isCreateCompleted : Action → Bool
  | .createCompleted => true
  | _ => false

/-- Recognizes the baseline TimerState fetch. -/
def isStateReq : Action → Bool
  | .stateReq _ => true
  | _ => false

/-- Recognizes the TimerStats fetch. -/
def isStatsReq : Action → Bool
  | .statsReq _ => true
  | _ => false

/-- Claim C3 counterexample: in the mount sequence for the default base
address and identity key, the WebSocket construction (index 1) precedes
the completion of the create request (index 2), so the live connection is
opened before the create request completes, contrary to the claim. -/
theorem mount_ws_open_precedes_create_completion :
    List.findIdx isWsOpenAttempt
        (mountTrace "http://localhost:8000" "default_user")
      < List.findIdx isCreateCompleted
        (mountTrace "http://localhost:8000" "default_user") := by
  decide

/-- Claim C3 amended: on mount, the create-or-get request with defaults
25, 5, 15, 4 is the first action, and the baseline TimerState fetch and
the TimerStats fetch are issued only after the create request completes;
the live connection, however, is opened immediately after the create
request is issued, before it completes. -/
theorem mount_order_amended (apiUrl userId : String) :
    (mountTrace apiUrl userId).head?
      = some (.createReq userId 25 5 15 4) ∧
    List.findIdx isWsOpenAttempt (mountTrace apiUrl userId)
      < List.findIdx isCreateCompleted (mountTrace apiUrl userId) ∧
    List.findIdx isCreateCompleted (mountTrace apiUrl userId)
      < List.findIdx isStateReq (mountTrace apiUrl userId) ∧
    List.findIdx isCreateCompleted (mountTrace apiUrl userId)
      < List.findIdx isStatsReq (mountTrace apiUrl userId) := by
  refine ⟨rfl, ?_, ?_, ?_⟩
  · exact (by decide : (1 : Nat) < 2)
  · exact (by decide : (2 : Nat) < 3)
  · exact (by decide : (2 : Nat) < 4)

/-- Claim C8 counterexample: the claim as stated is false. A push message
whose notification field is present but holds the empty string produces
no toast at all, because line 61 tests JavaScript truthiness and the
empty string is falsy, while the claim requires a notification with
exactly that text whenever the field is present. -/
theorem notification_presence_not_sufficient :
    ¬ (∀ (env : NotifEnv) (c : ComponentState) (m : PushMessage),
        m.notification.isSome = true →
        (handleMessage env c m).toasts = [m.notification.getD ""]) := by
  intro hall
  have h := hall ⟨true, "granted"⟩ ⟨none, none, false⟩
    ⟨⟨false, true, 1, 300, none⟩, some ""⟩ rfl
  simp [handleMessage, jsTruthyStr] at h

/-- Claim C8 amended: if the notification field of a push message is
present with a nonempty text, a toast with exactly that text is shown,
and a system notification titled Study Timer with the same text as body
is emitted exactly when the Notification API is available and permission
equals granted; if the field is absent, null, or holds the empty string,
no toast and no system notification is emitted; in every case the cached
TimerState becomes the message's state payload. -/
theorem notification_policy (env : NotifEnv) (c : ComponentState)
    (m : PushMessage) :
    (handleMessage env c m).newState.timerState = some m.state ∧
    (∀ t, m.notification = some t → t ≠ "" →
      (handleMessage env c m).toasts = [t] ∧
      (handleMessage env c m).sysNotifs =
        (if env.apiAvailable && (env.permission == "granted") then
          [("Study Timer", t)]
        else [])) ∧
    ((m.notification = none ∨ m.notification = some "") →
      (handleMessage env c m).toasts = [] ∧
      (handleMessage env c m).sysNotifs = []) := by
  refine ⟨?_, ?_, ?_⟩
  · unfold handleMessage
    split <;> rfl
  · intro t ht hne
    simp [handleMessage, jsTruthyStr, ht, hne]
  · intro h
    rcases h with h | h <;> simp [handleMessage, jsTruthyStr, h]

/-- Witness for notification_policy at the push of the spec scenario:
notification Break time!, Notification API available, permission
granted. -/
theorem notification_policy_witness :
    (handleMessage ⟨true, "granted"⟩ ⟨none, none, false⟩
        ⟨⟨false, true, 1, 300, none⟩, some "Break time!"⟩).toasts
      = ["Break time!"] ∧
    (handleMessage ⟨true, "granted"⟩ ⟨none, none, false⟩
        ⟨⟨false, true, 1, 300, none⟩, some "Break time!"⟩).sysNotifs
      = [("Study Timer", "Break time!")] ∧
    (handleMessage ⟨true, "granted"⟩ ⟨none, none, false⟩
        ⟨⟨false, true, 1, 300, none⟩,
          some "Break time!"⟩).newState.timerState
      = some ⟨false, true, 1, 300, none⟩ := by
  have h := notification_policy ⟨true, "granted"⟩ ⟨none, none, false⟩
    ⟨⟨false, true, 1, 300, none⟩, some "Break time!"⟩
  have h2 := h.2.1 "Break time!" rfl (by decide)
  exact ⟨h2.1, h2.2.trans (by decide), h.1⟩

/-- JavaScript String.prototype.padStart with a single-character pad
string: prepend enough copies of the pad to reach the target length, or
nothing if the string is already long enough. -/
def jsPadStart (s : String) (targetLength : Nat) (pad : Char) : String :=
  (⟨List.replicate (targetLength - s.length) pad⟩ : String) ++ s

/-- formatTime, StudyTimer.tsx lines 137-141: minutes are
Math.floor(seconds / 60) and secs are seconds % 60, each rendered in
decimal and padStart(2, '0'), joined by a colon. -/
def formatTime (seconds : Nat) : String :=
  jsPadStart (Nat.repr (seconds / 60)) 2 '0' ++ ":"
    ++ jsPadStart (Nat.repr (seconds % 60)) 2 '0'

/-- The field rendering the claim describes: the decimal numeral,
preceded by one 0 exactly when it is a single digit. -/
def padTwo (n : Nat) : String :=
  if n < 10 then "0" ++ Nat.repr n else Nat.repr n

/-- The decimal numeral of a number below ten is one character long. -/
theorem repr_length_one : ∀ n, n < 10 → (Nat.repr n).length = 1 := by
  decide

/-- The decimal numeral of a number in [10, 100) is two characters
long. -/
theorem repr_length_two : ∀ n, n < 100 → 10 ≤ n → (Nat.repr n).length = 2 := by
  decide

/-- Nat.toDigitsCore never shrinks its accumulator. -/
theorem toDigitsCore_acc_length (b : Nat) :
    ∀ (f m : Nat) (l : List Char),
      l.length ≤ (Nat.toDigitsCore b f m l).length := by
  intro f
  induction f with
  | zero => intro m l; simp [Nat.toDigitsCore]
  | succ f ih =>
    intro m l
    simp only [Nat.toDigitsCore]
    split
    · simp
    · exact le_trans (by simp)
        (ih (m / b) (Nat.digitChar (m % b) :: l))

/-- With positive fuel, Nat.toDigitsCore adds at least one digit to its
accumulator. -/
theorem toDigitsCore_length_lb (b f m : Nat) (l : List Char)
    (hf : 0 < f) :
    l.length + 1 ≤ (Nat.toDigitsCore b f m l).length := by
  cases f with
  | zero => omega
  | succ f =>
    simp only [Nat.toDigitsCore]
    split
    · simp
    · exact le_trans (by simp)
        (toDigitsCore_acc_length b f (m / b) (Nat.digitChar (m % b) :: l))

/-- The decimal numeral of a number of at least ten has at least two
characters. -/
theorem repr_length_ge_two (n : Nat) (h : 10 ≤ n) :
    2 ≤ (Nat.repr n).length := by
  have hdiv : ¬ n / 10 = 0 := by omega
  have hlen : (Nat.repr n).length
      = (Nat.toDigitsCore 10 (n + 1) n []).length := rfl
  rw [hlen]
  have hstep : Nat.toDigitsCore 10 (n + 1) n []
      = Nat.toDigitsCore 10 n (n / 10) [Nat.digitChar (n % 10)] := by
    conv => lhs; simp only [Nat.toDigitsCore]
    rw [if_neg hdiv]
  rw [hstep]
  have hlb := toDigitsCore_length_lb 10 n (n / 10)
    [Nat.digitChar (n % 10)] (by omega)
  simpa using hlb

/-- Prepending the empty string is the identity. -/
theorem mk_nil_append (s : String) : (⟨[]⟩ : String) ++ s = s :=
  String.ext (by simp [String.data_append])

/-- jsPadStart to width two of a decimal numeral is exactly the padded
field the claim describes. -/
theorem jsPadStart_two_repr (n : Nat) :
    jsPadStart (Nat.repr n) 2 '0' = padTwo n := by
  by_cases h : n < 10
  · have h1 := repr_length_one n h
    rw [jsPadStart, padTwo, if_pos h, h1]
    norm_num
  · have h2 := repr_length_ge_two n (by omega)
    have h0 : 2 - (Nat.repr n).length = 0 := by omega
    rw [jsPadStart, padTwo, if_neg h, h0]
    exact mk_nil_append _

/-- Claim C10: for every number of seconds s, formatTime s consists of
the decimal numeral of s / 60 left-padded with 0 to at least two
characters, a colon, and the decimal numeral of s mod 60 left-padded
with 0 to exactly two characters; in particular 1500 formats as 25:00
and 0 as 00:00. -/
theorem formatTime_spec (s : Nat) :
    formatTime s = padTwo (s / 60) ++ ":" ++ padTwo (s % 60) ∧
    2 ≤ (padTwo (s / 60)).length ∧
    (padTwo (s % 60)).length = 2 ∧
    formatTime 1500 = "25:00" ∧
    formatTime 0 = "00:00" := by
  refine ⟨?_, ?_, ?_, by decide, by decide⟩
  · rw [formatTime, jsPadStart_two_repr, jsPadStart_two_repr]
  · by_cases h : s / 60 < 10
    · rw [padTwo, if_pos h, String.length_append, repr_length_one _ h]
      decide
    · rw [padTwo, if_neg h]
      exact repr_length_ge_two _ (by omega)
  · have hlt : s % 60 < 60 := Nat.mod_lt _ (by omega)
    by_cases h : s % 60 < 10
    · rw [padTwo, if_pos h, String.length_append, repr_length_one _ h]
      decide
    · rw [padTwo, if_neg h]
      exact repr_length_two _ (by omega) (by omega)

end StudyTimerModel
